import Mathlib

/-!
Verification development for the MediaPipe hand-tracking DLL demo harness.

The repository's only source file is
`dll_use_example/MediapipePackageDllTest/src/main.cpp`: a demo that loads a
prebuilt hand-tracking DLL, registers callbacks, feeds it camera frames and
draws the returned keypoints.  The pure helper functions and the callback /
drawing logic are embedded directly from that file.  The `MediapipeHandTrackingDll`
loader class and the external DLL itself are not part of the sources here, so
the Module Loader / Callback Router state machine is modelled from the
specification (each such definition carries a `Modelled from the spec:` note).
-/

/-- Modelled from the spec (the `PoseInfo` struct comes from the DLL header
`MediapipeHandTrackingDll.h`, which is not among the sources): a landmark
record is a 2D point.  No claim depends on coordinate arithmetic, so the
coordinates are taken as integers. -/
structure PoseInfo where
  x : Int
  y : Int
deriving Repr, DecidableEq

/-- Embedded from `main.cpp`, `GetGestureResult` (lines 12-50): a `switch` on
the gesture code mapping 1..9 to the nine pose labels; every other code keeps
the initial value, the unknown-gesture label `"未知手势"`. -/
def GetGestureResult (result : Int) : String :=
  if result = 1 then "One"
  else if result = 2 then "Two"
  else if result = 3 then "Three"
  else if result = 4 then "Four"
  else if result = 5 then "Five"
  else if result = 6 then "Six"
  else if result = 7 then "ThumbUp"
  else if result = 8 then "Ok"
  else if result = 9 then "Fist"
  else "未知手势"

/-- Embedded from `main.cpp`, `GetArmUpAndDownResult` (lines 52-72): a `switch`
mapping `-1` to `"未知"` (also the initial/default value), `1` to the
arm-raised label `"手臂抬起"` and `2` to the arm-lowered label `"手臂放下"`. -/
def GetArmUpAndDownResult (result : Int) : String :=
  if result = -1 then "未知"
  else if result = 1 then "手臂抬起"
  else if result = 2 then "手臂放下"
  else "未知"

/-- The global state touched by the landmarks callback in `main.cpp`
(lines 9-10): `std::vector<cv::Point> handKPs(42)` and
`int gValidKpCount = 21`. -/
structure AppState where
  handKPs : List (Int × Int)
  gValidKpCount : Int
deriving Repr, DecidableEq

/-- The globals' initial values from `main.cpp` lines 9-10: 42 default-constructed
points and `gValidKpCount = 21`. -/
def initialAppState : AppState :=
  { handKPs := List.replicate 42 ((0 : Int), (0 : Int)), gValidKpCount := 21 }

/-- The write loop of `LandmarksCallBackImpl` (`main.cpp` lines 84-93):
`for (int i = 0; i < count; ++i) if (i < 42) handKPs[i] = Point(infos[i].x, infos[i].y)`.
`kpWriteLoop kps infos n` performs the writes for `i = 0 .. n-1` in order
(`List.set` leaves the list unchanged when the index is out of range, matching
the `i < 42` guard against the vector's fixed size 42). -/
def kpWriteLoop (kps : List (Int × Int)) (infos : List PoseInfo) : Nat → List (Int × Int)
  | 0 => kps
  | n + 1 =>
    let prev := kpWriteLoop kps infos n
    if n < 42 then prev.set n ((infos.getD n ⟨0, 0⟩).x, (infos.getD n ⟨0, 0⟩).y)
    else prev

/-- Embedded from `main.cpp`, `LandmarksCallBackImpl` (lines 76-94): stores
`count` into `gValidKpCount`, clamps it to 42 from above, and copies the first
`count` landmarks (guarded by `i < 42`) into `handKPs`.  A negative `count`
runs the C++ `for` loop zero times, hence the `Int.toNat` bound. -/
def LandmarksCallBackImpl (s : AppState) (imageIndex : Int) (infos : List PoseInfo)
    (count : Int) : AppState :=
  let g := if count > 42 then (42 : Int) else count
  { handKPs := kpWriteLoop s.handKPs infos count.toNat, gValidKpCount := g }

/-- The fixed hand-skeleton topology of `DrawHandKeyponts` (`main.cpp`
lines 119-139): the 21 `cv::line` calls per hand, as pairs of per-hand joint
indices added to the running `offset`. -/
def lineSegs : List (Nat × Nat) :=
  [(0, 1), (1, 2), (2, 3), (3, 4),
   (0, 5), (5, 6), (6, 7), (7, 8),
   (9, 10), (10, 11), (11, 12),
   (13, 14), (14, 15), (15, 16),
   (0, 17), (17, 18), (18, 19), (19, 20),
   (5, 9), (9, 13), (13, 17)]

/-- The indices into `handKPs` read by `DrawHandKeyponts` (`main.cpp`
lines 105-144) for a given `gValidKpCount`: circles at indices
`0 .. gValidKpCount-1`, then for each of `handCount = gValidKpCount / 21`
hands (offset `21 * h`) the endpoints of the 21 skeleton lines.  The claims
only concern non-negative `gValidKpCount`, for which C++ `int` division agrees
with `Int.toNat` followed by `Nat` division. -/
def drawAccessIndices (g : Int) : List Nat :=
  List.range g.toNat ++
    (List.range (g.toNat / 21)).flatMap (fun h =>
      lineSegs.flatMap (fun ab => [21 * h + ab.1, 21 * h + ab.2]))

/-- One camera-loop iteration's input in `HandTrackingDllTest` (`main.cpp`
lines 211-288): either the capture yields a frame (with `key` recording
whether `cv::waitKey` ends the loop after processing it), or the read fails /
the frame is empty and the loop breaks before calling detection. -/
inductive CamEvent where
  | frame (key : Bool)
  | fail
deriving Repr, DecidableEq

/-- Embedded from the capture loop of `HandTrackingDllTest` (`main.cpp`
lines 210-288): starting from `image_index`, each successful read calls
`m_Mediapipe_Hand_Tracking_Detect_Frame(image_index, ...)` and then increments
`image_index` by 1; a failed read or a key press breaks the loop.  The result
is the sequence of frame indices passed to the detect-frame calls. -/
def captureLoop : List CamEvent → Nat → List Nat
  | [], _ => []
  | CamEvent.fail :: _, _ => []
  | CamEvent.frame key :: rest, idx =>
    idx :: (if key then [] else captureLoop rest (idx + 1))

/-! ## The Module Loader / Callback Router, modelled from the spec

The `MediapipeHandTrackingDll` class used by `main.cpp` (its `LoadMediapipeHandTrackingDll`,
`GetAllFunctions`, the `m_...` entry points and `UnLoadMediapipeHandTrackingDll`)
and the external DLL's behaviour are not among the sources, so they are
modelled from spec sections 4.1 (Module Loader state machine), 4.2 (Callback
Router), 7 (error taxonomy) and 8 (testable properties). -/

/-- Modelled from the spec, section 7: the error taxonomy of the shim. -/
inductive LoaderError where
  | ModuleNotFound
  | SymbolNotFound (name : String)
  | NotInitialized
  | AlreadyLoaded
  | RegistrationFailed
  | DetectionFailed
  | ReleaseFailed
deriving Repr, DecidableEq

/-- Modelled from the spec, section 4.1: the loader's state machine
`Unloaded → Loaded → Resolved → Initialized → Released → Unloaded`, plus the
unusable state a failed `ResolveAll` leaves behind ("the loader reports
failure and remains unusable until reloaded"). -/
inductive LoaderPhase where
  | Unloaded
  | Loaded
  | Resolved
  | Initialized
  | Released
  | Unusable
deriving Repr, DecidableEq

/-- Modelled from the spec, sections 4.2 and 6: the module's per-frame hand
detection outcome delivered to the landmarks callback — `count` is either 21
(single hand) or 42 (two hands, right-hand points first). -/
inductive Detection where
  | oneHand (pts : Fin 21 → PoseInfo)
  | twoHands (right left : Fin 21 → PoseInfo)

/-- Modelled from the spec, sections 2 and 4.2: the external native module,
reduced to what the shim can observe — which symbols it exports, whether its
init entry point reports success, and its per-frame detection outcome
(a function of the frame's width, height and pixel buffer). -/
structure NativeModule where
  exports : List String
  initOk : Bool
  detect : Nat → Nat → List Int → Detection

/-- The landmark batch a `Detection` delivers: 21 points for one hand, or the
right hand's 21 points followed by the left hand's 21 points. -/
def Detection.batch : Detection → List PoseInfo
  | Detection.oneHand pts => List.ofFn pts
  | Detection.twoHands right left => List.ofFn right ++ List.ofFn left

/-- Modelled from the spec, sections 3 and 4: one Module Loader instance —
its phase, the loaded module (exclusively owned), the Entry Point Table
(`some` of the resolved names once `ResolveAll` succeeded, immutable after
construction), and which callback handlers the Callback Router has
registered with the module. -/
structure LoaderState where
  phase : LoaderPhase
  loadedModule : Option NativeModule
  table : Option (List String)
  lmRegistered : Bool
  clsRegistered : Bool

/-- The pristine unloaded loader: no module, no entry-point table, no
registered handlers. -/
def LoaderState.pristine : LoaderState :=
  { phase := LoaderPhase.Unloaded, loadedModule := none, table := none,
    lmRegistered := false, clsRegistered := false }

/-- Modelled from the spec, sections 4.1 and 6: the fixed export list the
loader must resolve (init, register-landmarks-callback,
register-classification-callback, detect-frame, detect-frame-direct,
detect-video, release), with the symbol names `main.cpp` calls through the
`MediapipeHandTrackingDll` members. -/
def requiredSymbols : List String :=
  ["Mediapipe_Hand_Tracking_Init",
   "Mediapipe_Hand_Tracking_Reigeter_Landmarks_Callback",
   "Mediapipe_Hand_Tracking_Register_Gesture_Result_Callback",
   "Mediapipe_Hand_Tracking_Detect_Frame",
   "Mediapipe_Hand_Tracking_Detect_Frame_Direct",
   "Mediapipe_Hand_Tracking_Detect_Video",
   "Mediapipe_Hand_Tracking_Release"]

/-- Modelled from the spec, section 4.1, `Load(path)`: fails with
`ModuleNotFound` if the path does not resolve to a loadable module (the
filesystem is abstracted as `fs`), fails with `AlreadyLoaded` when called
twice without an intervening `Unload`; on success transitions to `Loaded`.
Returns the reported error, if any, together with the successor state. -/
def load (fs : String → Option NativeModule) (path : String) (s : LoaderState) :
    Option LoaderError × LoaderState :=
  if s.phase ≠ LoaderPhase.Unloaded then (some LoaderError.AlreadyLoaded, s)
  else
    match fs path with
    | none => (some LoaderError.ModuleNotFound, s)
    | some m =>
      (none, { s with phase := LoaderPhase.Loaded, loadedModule := some m })

/-- Modelled from the spec, section 4.1, `ResolveAll()` (the
`GetAllFunctions` of `main.cpp` line 156): resolves every name of the fixed
export list; fails with `SymbolNotFound(name)` on the first absent symbol,
in which case no entry-point table is produced and the loader becomes
unusable until reloaded; on success produces the full table and transitions
to `Resolved`. -/
def resolveAll (s : LoaderState) : Option LoaderError × LoaderState :=
  match s.phase, s.loadedModule with
  | LoaderPhase.Loaded, some m =>
    match requiredSymbols.find? (fun n => !m.exports.contains n) with
    | some missing =>
      (some (LoaderError.SymbolNotFound missing),
       { s with phase := LoaderPhase.Unusable, table := none })
    | none =>
      (none, { s with phase := LoaderPhase.Resolved, table := some requiredSymbols })
  | _, _ => (some LoaderError.NotInitialized, s)

/-- Modelled from the spec, section 4.1, `Invoke<Init>`: requires the
`Resolved` phase; calls the module's init entry point and returns its
success/failure verbatim (a bare boolean, uninterpreted); only success
transitions to `Initialized`. -/
def initOp (s : LoaderState) : Bool × LoaderState :=
  match s.phase, s.loadedModule with
  | LoaderPhase.Resolved, some m =>
    if m.initOk then (true, { s with phase := LoaderPhase.Initialized })
    else (false, s)
  | _, _ => (false, s)

/-- Modelled from the spec, section 4.2, `RegisterLandmarksHandler`: the
Callback Router stores the caller's handler and registers a trampoline with
the module; the module rejects registration (`RegistrationFailed`) when not
yet initialized. -/
def registerLandmarksHandler (s : LoaderState) : Option LoaderError × LoaderState :=
  if s.phase = LoaderPhase.Initialized then (none, { s with lmRegistered := true })
  else (some LoaderError.RegistrationFailed, s)

/-- Modelled from the spec, section 4.2, `RegisterClassificationHandler`:
analogous contract to the landmarks registration. -/
def registerClassificationHandler (s : LoaderState) : Option LoaderError × LoaderState :=
  if s.phase = LoaderPhase.Initialized then (none, { s with clsRegistered := true })
  else (some LoaderError.RegistrationFailed, s)

/-- One invocation of the registered landmarks handler: the frame index it
was called with, the landmark batch, and the `count` argument. -/
structure LmInvocation where
  frameIndex : Nat
  batch : List PoseInfo
  count : Nat
deriving Repr, DecidableEq

/-- Modelled from the spec, sections 4.1, 4.2 and 8, `Invoke<DetectFrame>`:
before `Initialized` it is a usage error (`NotInitialized`) and no callback
fires; from `Initialized` the module processes the frame and invokes the
registered landmarks handler exactly once, synchronously, with the frame
index, the landmark batch and its length as `count` (nothing is invoked when
no handler is registered).  Returns the reported error, the successor state
and the list of landmark-handler invocations that happened before return. -/
def detectFrame (frameIndex width height : Nat) (pixels : List Int)
    (s : LoaderState) : Option LoaderError × LoaderState × List LmInvocation :=
  match s.phase, s.loadedModule with
  | LoaderPhase.Initialized, some m =>
    let d := m.detect width height pixels
    if s.lmRegistered then
      (none, s, [{ frameIndex := frameIndex, batch := d.batch, count := d.batch.length }])
    else (none, s, [])
  | _, _ => (some LoaderError.NotInitialized, s, [])

/-- Modelled from the spec, sections 4.1 and 6, the `detect-frame-direct`
entry point: a detection operation, hence a usage error (`NotInitialized`)
before `Initialized`; the classification codes it returns directly are not
needed by any claim and are elided. -/
def detectFrameDirect (width height : Nat) (pixels : List Int)
    (s : LoaderState) : Option LoaderError × LoaderState :=
  match s.phase, s.loadedModule with
  | LoaderPhase.Initialized, some _ => (none, s)
  | _, _ => (some LoaderError.NotInitialized, s)

/-- Modelled from the spec, sections 4.1 and 6, the `detect-video` entry
point: a detection operation, hence a usage error (`NotInitialized`) before
`Initialized`. -/
def detectVideo (videoPath : String) (s : LoaderState) :
    Option LoaderError × LoaderState :=
  match s.phase, s.loadedModule with
  | LoaderPhase.Initialized, some _ => (none, s)
  | _, _ => (some LoaderError.NotInitialized, s)

/-- Modelled from the spec, section 4.1, `Invoke<Release>`: a usage error
(`NotInitialized`) before `Initialized`; otherwise releases the module's
internal state and transitions to `Released`. -/
def releaseOp (s : LoaderState) : Option LoaderError × LoaderState :=
  match s.phase, s.loadedModule with
  | LoaderPhase.Initialized, some _ =>
    (none, { s with phase := LoaderPhase.Released })
  | _, _ => (some LoaderError.NotInitialized, s)

/-- Modelled from the spec, section 4.1, `Unload()`: releases the module
handle; the instance returns to an unloaded state and all previously
resolved callables become invalid (module, table and registrations are
dropped). -/
def unload (s : LoaderState) : LoaderState :=
  LoaderState.pristine

/-- Modelled from the spec, section 8, the round-trip scenario: the full
cycle `Load → ResolveAll → Init → Release → Unload` run from a given state,
returning whether every step succeeded together with the final state. -/
def runCycle (fs : String → Option NativeModule) (path : String) (s0 : LoaderState) :
    Bool × LoaderState :=
  let r1 := load fs path s0
  let r2 := resolveAll r1.2
  let r3 := initOp r2.2
  let r4 := releaseOp r3.2
  let s5 := unload r4.2
  ((r1.1 == none) && (r2.1 == none) && r3.1 && (r4.1 == none), s5)

/-- Whether a loader phase has reached `Initialized`: `Released` lies after
`Initialized` in the state machine, every other non-`Initialized` phase
(including `Unusable`, reached by a failed `ResolveAll`, and `Resolved`
after a failed init) has not. -/
def reachedInit : LoaderPhase → Bool
  | LoaderPhase.Initialized => true
  | LoaderPhase.Released => true
  | _ => false

/-! ## Concrete fixtures used by witness theorems -/

/-- A module exporting every required symbol, whose init succeeds and which
detects two hands on every frame (right hand's points tagged `y = 0`, left
hand's tagged `y = 1`). -/
def fullModule : NativeModule :=
  { exports := requiredSymbols, initOk := true,
    detect := fun _ _ _ =>
      Detection.twoHands (fun i => ⟨i.val, 0⟩) (fun i => ⟨i.val, 1⟩) }

/-- A module missing all required symbols except the init entry point. -/
def missingModule : NativeModule :=
  { exports := ["Mediapipe_Hand_Tracking_Init"], initOk := true,
    detect := fun _ _ _ => Detection.oneHand (fun i => ⟨i.val, 0⟩) }

/-- A loader that has loaded `missingModule` and not yet resolved symbols. -/
def loadedMissingState : LoaderState :=
  { phase := LoaderPhase.Loaded, loadedModule := some missingModule,
    table := none, lmRegistered := false, clsRegistered := false }

/-- A loader that has loaded `fullModule`, resolved all symbols, initialized
successfully and registered a landmarks handler. -/
def readyState : LoaderState :=
  { phase := LoaderPhase.Initialized, loadedModule := some fullModule,
    table := some requiredSymbols, lmRegistered := true, clsRegistered := false }

/-- A filesystem containing `fullModule` at the release DLL path used by
`main.cpp`. -/
def demoFs : String → Option NativeModule :=
  fun p => if p = "./Mediapipe_Hand_Tracking.dll" then some fullModule else none

/-- The landmark-handler invocation trace of one detect-frame call on
`readyState` with a 100×100 buffer. -/
def demoTrace : List LmInvocation :=
  (detectFrame 7 100 100 [] readyState).2.2

/-- The first (and only) invocation in `demoTrace`. -/
def demoInv : LmInvocation :=
  demoTrace.getD 0 { frameIndex := 0, batch := [], count := 0 }

/-! ## Theorems -/

/-- Claim C5: `GetGestureResult` maps 1→"One", 2→"Two", 3→"Three", 4→"Four",
5→"Five", 6→"Six", 7→"ThumbUp", 8→"Ok", 9→"Fist", and returns the
unknown-gesture label `"未知手势"` for every other integer, including the
`-1` sentinel. -/
theorem gesture_label_mapping :
    (GetGestureResult 1 = "One" ∧ GetGestureResult 2 = "Two" ∧
     GetGestureResult 3 = "Three" ∧ GetGestureResult 4 = "Four" ∧
     GetGestureResult 5 = "Five" ∧ GetGestureResult 6 = "Six" ∧
     GetGestureResult 7 = "ThumbUp" ∧ GetGestureResult 8 = "Ok" ∧
     GetGestureResult 9 = "Fist") ∧
    ∀ r : Int, (r < 1 ∨ 9 < r) → GetGestureResult r = "未知手势" := by
  constructor
  · exact ⟨rfl, rfl, rfl, rfl, rfl, rfl, rfl, rfl, rfl⟩
  · intro r hr
    unfold GetGestureResult
    rcases hr with h | h <;>
      (split_ifs <;> first | rfl | omega)

/-- Witness for C5: the `-1` sentinel lies outside `1..9` and maps to the
unknown-gesture label. -/
theorem gesture_label_mapping_witness :
    ((-1 : Int) < 1 ∨ 9 < (-1 : Int)) ∧ GetGestureResult (-1) = "未知手势" :=
  ⟨Or.inl (by norm_num), gesture_label_mapping.2 (-1) (Or.inl (by norm_num))⟩

/-- Claim C6: `GetArmUpAndDownResult` returns the arm-raised label
`"手臂抬起"` exactly for input 1, the arm-lowered label `"手臂放下"` exactly
for input 2, and the unknown label `"未知"` for every other integer,
including the `-1` sentinel. -/
theorem arm_state_label_mapping :
    GetArmUpAndDownResult 1 = "手臂抬起" ∧
    GetArmUpAndDownResult 2 = "手臂放下" ∧
    (∀ r : Int, r ≠ 1 → GetArmUpAndDownResult r ≠ "手臂抬起") ∧
    (∀ r : Int, r ≠ 2 → GetArmUpAndDownResult r ≠ "手臂放下") ∧
    (∀ r : Int, r ≠ 1 → r ≠ 2 → GetArmUpAndDownResult r = "未知") := by
  refine ⟨rfl, rfl, ?_, ?_, ?_⟩
  · intro r h
    unfold GetArmUpAndDownResult
    split_ifs <;> decide
  · intro r h
    unfold GetArmUpAndDownResult
    split_ifs <;> decide
  · intro r h1 h2
    unfold GetArmUpAndDownResult
    split_ifs <;> rfl

/-- Witness for C6: the `-1` sentinel is neither 1 nor 2 and maps to the
unknown label. -/
theorem arm_state_label_mapping_witness :
    (-1 : Int) ≠ 1 ∧ (-1 : Int) ≠ 2 ∧ GetArmUpAndDownResult (-1) = "未知" :=
  ⟨by norm_num, by norm_num,
   arm_state_label_mapping.2.2.2.2 (-1) (by norm_num) (by norm_num)⟩

/-- The capture loop started at index `i` passes the consecutive indices
`i, i+1, ...` to the detect-frame calls. -/
theorem captureLoop_eq_range' (evs : List CamEvent) :
    ∀ i, captureLoop evs i = List.range' i (captureLoop evs i).length := by
  induction evs with
  | nil => intro i; rfl
  | cons e rest ih =>
    intro i
    cases e with
    | fail => rfl
    | frame key =>
      cases key with
      | true => rfl
      | false =>
        show i :: captureLoop rest (i + 1) =
          List.range' i (i :: captureLoop rest (i + 1)).length
        rw [List.length_cons, List.range'_succ]
        rw [← ih (i + 1)]

/-- Claim C8: in the capture loop the frame index starts at 0 and each
successive detect-frame call receives an index exactly one greater than the
previous call's, i.e. the sequence of indices passed to detect-frame is
`0, 1, 2, ...`. -/
theorem frame_index_monotone (evs : List CamEvent) :
    captureLoop evs 0 = List.range (captureLoop evs 0).length := by
  rw [List.range_eq_range']
  exact captureLoop_eq_range' evs 0

/-- The write loop never changes the buffer's length. -/
theorem kpWriteLoop_length (kps : List (Int × Int)) (infos : List PoseInfo) :
    ∀ n, (kpWriteLoop kps infos n).length = kps.length := by
  intro n
  induction n with
  | zero => rfl
  | succ n ih =>
    show (if n < 42 then _ else _ : List (Int × Int)).length = _
    split_ifs
    · rw [List.length_set, ih]
    · exact ih

/-- The write loop leaves every slot at an index `≥ min n 42` untouched. -/
theorem kpWriteLoop_getD_untouched (kps : List (Int × Int)) (infos : List PoseInfo) :
    ∀ n j, min n 42 ≤ j → ∀ d,
      (kpWriteLoop kps infos n).getD j d = kps.getD j d := by
  intro n
  induction n with
  | zero => intro j _ d; rfl
  | succ n ih =>
    intro j hj d
    have hj' : min n 42 ≤ j := le_trans (by omega) hj
    show (if n < 42 then _ else _ : List (Int × Int)).getD j d = _
    split_ifs with hn
    · have hne : n ≠ j := by omega
      rw [List.getD_eq_getElem?_getD, List.getElem?_set_ne hne,
        ← List.getD_eq_getElem?_getD]
      exact ih j hj' d
    · exact ih j hj' d

/-- Claim C9: for any non-negative `count` (even one outside `{21, 42}`),
`LandmarksCallBackImpl` writes only the slots `0 .. min(count,42)-1` of the
keypoint buffer — every slot at an index `≥ min(count,42)`, in particular
every index `≥ 42`, is untouched and the buffer's length is unchanged — and
afterwards `gValidKpCount` is at most 42. -/
theorem landmarks_callback_bounds (s : AppState) (imageIndex : Int)
    (infos : List PoseInfo) (count : Int) (hc : 0 ≤ count) :
    (∀ j, min count.toNat 42 ≤ j → ∀ d,
      (LandmarksCallBackImpl s imageIndex infos count).handKPs.getD j d =
        s.handKPs.getD j d) ∧
    (LandmarksCallBackImpl s imageIndex infos count).handKPs.length =
      s.handKPs.length ∧
    (LandmarksCallBackImpl s imageIndex infos count).gValidKpCount ≤ 42 := by
  refine ⟨?_, ?_, ?_⟩
  · intro j hj d
    exact kpWriteLoop_getD_untouched s.handKPs infos count.toNat j hj d
  · exact kpWriteLoop_length s.handKPs infos count.toNat
  · show (if count > 42 then (42 : Int) else count) ≤ 42
    split_ifs <;> omega

/-- Witness for C9: invoking the callback on the initial globals with
`count = 50` (outside `{21, 42}`) leaves `gValidKpCount` at most 42 and the
buffer length at 42. -/
theorem landmarks_callback_bounds_witness :
    (0 : Int) ≤ 50 ∧
    (LandmarksCallBackImpl initialAppState 0 [] 50).handKPs.length =
      initialAppState.handKPs.length ∧
    (LandmarksCallBackImpl initialAppState 0 [] 50).gValidKpCount ≤ 42 :=
  ⟨by norm_num,
   (landmarks_callback_bounds initialAppState 0 [] 50 (by norm_num)).2.1,
   (landmarks_callback_bounds initialAppState 0 [] 50 (by norm_num)).2.2⟩

set_option maxRecDepth 40000 in
/-- Every buffer index `DrawHandKeyponts` touches for a valid-keypoint count
of at most 42 is below 42 (checked for each of the 43 possible counts). -/
theorem drawAccessIndices_nat_bound :
    ∀ n : Nat, n ≤ 42 → ∀ idx ∈ drawAccessIndices (n : Int), idx < 42 := by
  decide

/-- Claim C10: under the precondition `0 ≤ gValidKpCount ≤ 42`, every access
`DrawHandKeyponts` performs on the 42-element keypoint buffer is in bounds —
circles at indices `0 .. gValidKpCount-1` and skeleton lines at per-hand
indices at most `offset + 20 ≤ 41` — and the hand count
`gValidKpCount / 21` is at most 2. -/
theorem draw_accesses_in_bounds (g : Int) (h0 : 0 ≤ g) (h42 : g ≤ 42) :
    (∀ idx ∈ drawAccessIndices g, idx < 42) ∧ g.toNat / 21 ≤ 2 := by
  constructor
  · have hg : g = (g.toNat : Int) := by omega
    rw [hg]
    exact drawAccessIndices_nat_bound g.toNat (by omega)
  · have : g.toNat ≤ 42 := by omega
    omega

/-- Witness for C10: the two-hand count 42 satisfies the precondition, and
drawing with it accesses only in-bounds indices (shown here for the last
line endpoint of the second hand, index `21 + 17`). -/
theorem draw_accesses_in_bounds_witness :
    (0 : Int) ≤ 42 ∧ (42 : Int) ≤ 42 ∧ (42 : Int).toNat / 21 ≤ 2 :=
  ⟨by norm_num, by norm_num,
   (draw_accesses_in_bounds 42 (by norm_num) (by norm_num)).2⟩

/-- A symbol list not wholly contained in `exps` has a first member missing
from `exps`, and `find?` with the not-exported predicate returns it. -/
theorem find?_missing_symbol (exps : List String) :
    ∀ l : List String, l.all (fun n => exps.contains n) = false →
      ∃ x, l.find? (fun n => !exps.contains n) = some x ∧ x ∈ l ∧
        exps.contains x = false := by
  intro l
  induction l with
  | nil => intro h; simp [List.all_nil] at h
  | cons a t ih =>
    intro h
    cases hpa : exps.contains a with
    | false =>
      refine ⟨a, ?_, List.mem_cons_self a t, hpa⟩
      rw [List.find?_cons_of_pos]
      show (!exps.contains a) = true
      rw [hpa]
      rfl
    | true =>
      have ht : t.all (fun n => exps.contains n) = false := by
        rw [List.all_cons] at h
        simp only [hpa] at h
        simpa using h
      obtain ⟨x, hfind, hmem, hpx⟩ := ih ht
      refine ⟨x, ?_, List.mem_cons_of_mem a hmem, hpx⟩
      rw [List.find?_cons_of_neg]
      · exact hfind
      · show ¬(!exps.contains a) = true
        rw [hpa]
        decide

/-- Claim C3: if any required symbol is absent from the loaded module,
`ResolveAll` (`GetAllFunctions`) fails with `SymbolNotFound` naming a
missing required symbol, produces no entry-point table, and leaves the
loader unusable — every subsequent init, detection or release call fails —
until it is reloaded. -/
theorem resolveAll_symbol_not_found (s : LoaderState) (m : NativeModule)
    (hp : s.phase = LoaderPhase.Loaded) (hm : s.loadedModule = some m)
    (hmiss : requiredSymbols.all (fun n => m.exports.contains n) = false) :
    ∃ name, name ∈ requiredSymbols ∧ m.exports.contains name = false ∧
      (resolveAll s).1 = some (LoaderError.SymbolNotFound name) ∧
      (resolveAll s).2.table = none ∧
      (resolveAll s).2.phase = LoaderPhase.Unusable ∧
      (∀ fi w h px, (detectFrame fi w h px (resolveAll s).2).1 =
        some LoaderError.NotInitialized) ∧
      (initOp (resolveAll s).2).1 = false ∧
      (releaseOp (resolveAll s).2).1 = some LoaderError.NotInitialized := by
  obtain ⟨ph, lm, tb, lr, cr⟩ := s
  simp only at hp hm
  subst hp
  subst hm
  obtain ⟨name, hfind, hmem, hname⟩ :=
    find?_missing_symbol m.exports requiredSymbols hmiss
  have hres : resolveAll ⟨LoaderPhase.Loaded, some m, tb, lr, cr⟩ =
      (some (LoaderError.SymbolNotFound name),
       { phase := LoaderPhase.Unusable, loadedModule := some m, table := none,
         lmRegistered := lr, clsRegistered := cr }) := by
    simp only [resolveAll]
    rw [hfind]
  refine ⟨name, hmem, hname, by rw [hres], by rw [hres], by rw [hres],
    ?_, by rw [hres]; rfl, by rw [hres]; rfl⟩
  intro fi w h px
  rw [hres]
  rfl

/-- Witness for C3: resolving on a loader that has loaded a module exporting
only the init symbol fails and leaves no entry-point table. -/
theorem resolveAll_symbol_not_found_witness :
    loadedMissingState.phase = LoaderPhase.Loaded ∧
    loadedMissingState.loadedModule = some missingModule ∧
    requiredSymbols.all (fun n => missingModule.exports.contains n) = false ∧
    (resolveAll loadedMissingState).2.table = none := by
  refine ⟨rfl, rfl, by decide, ?_⟩
  obtain ⟨name, -, -, -, ht, -, -, -, -⟩ :=
    resolveAll_symbol_not_found loadedMissingState missingModule rfl rfl (by decide)
  exact ht

/-- Claim C4: in every loader state that has not reached `Initialized`
(unloaded, merely loaded, unusable after a failed resolve, or resolved —
including after a failed init, which stays in `Resolved`), every detection
operation and the release operation fail with `NotInitialized`, leave the
state unchanged, and invoke no callback. -/
theorem pre_init_ops_fail (s : LoaderState)
    (h : reachedInit s.phase = false) :
    (∀ fi w ht px, detectFrame fi w ht px s =
      (some LoaderError.NotInitialized, s, [])) ∧
    (∀ w ht px, detectFrameDirect w ht px s =
      (some LoaderError.NotInitialized, s)) ∧
    (∀ vp, detectVideo vp s = (some LoaderError.NotInitialized, s)) ∧
    releaseOp s = (some LoaderError.NotInitialized, s) := by
  obtain ⟨ph, lm, tb, lr, cr⟩ := s
  cases ph <;> simp [reachedInit] at h <;> cases lm <;>
    exact ⟨fun _ _ _ _ => rfl, fun _ _ _ => rfl, fun _ => rfl, rfl⟩

/-- Witness for C4: on the pristine unloaded loader, release fails with
`NotInitialized` and changes nothing. -/
theorem pre_init_ops_fail_witness :
    reachedInit LoaderState.pristine.phase = false ∧
    releaseOp LoaderState.pristine =
      (some LoaderError.NotInitialized, LoaderState.pristine) :=
  ⟨rfl, (pre_init_ops_fail LoaderState.pristine rfl).2.2.2⟩

/-- Claim C2: from an initialized loader with a registered landmarks handler,
one detect-frame call with any pixel buffer reports no error and results in
exactly one invocation of the handler before it returns, carrying the call's
frame index and a `count` in `{0, 21, 42}`. -/
theorem detect_frame_single_invocation (s : LoaderState) (m : NativeModule)
    (hm : s.loadedModule = some m) (hp : s.phase = LoaderPhase.Initialized)
    (hreg : s.lmRegistered = true) (fi w h : Nat) (px : List Int) :
    (detectFrame fi w h px s).1 = none ∧
    (detectFrame fi w h px s).2.2.length = 1 ∧
    ∀ inv ∈ (detectFrame fi w h px s).2.2,
      inv.frameIndex = fi ∧ (inv.count = 0 ∨ inv.count = 21 ∨ inv.count = 42) := by
  obtain ⟨ph, lm, tb, lr, cr⟩ := s
  simp only at hp hm hreg
  subst hp
  subst hm
  subst hreg
  refine ⟨rfl, rfl, ?_⟩
  intro inv hinv
  have hinv' : inv =
      { frameIndex := fi, batch := (m.detect w h px).batch,
        count := (m.detect w h px).batch.length } := by
    simpa [detectFrame] using hinv
  subst hinv'
  refine ⟨rfl, ?_⟩
  cases hd : m.detect w h px with
  | oneHand pts =>
    right; left
    simp [hd, Detection.batch]
  | twoHands right left =>
    right; right
    simp [hd, Detection.batch]

/-- Witness for C2: one detect-frame call on the ready loader with a 100×100
buffer produces exactly one handler invocation. -/
theorem detect_frame_single_invocation_witness :
    readyState.loadedModule = some fullModule ∧
    readyState.phase = LoaderPhase.Initialized ∧
    readyState.lmRegistered = true ∧
    (detectFrame 0 100 100 [] readyState).2.2.length = 1 :=
  ⟨rfl, rfl, rfl,
   (detect_frame_single_invocation readyState fullModule rfl rfl rfl
     0 100 100 []).2.1⟩

/-- Reading slot `i < n` of a batch `ofFn f ++ ofFn g` yields `f i`. -/
theorem getD_ofFn_append_left {n : Nat} (f g : Fin n → PoseInfo) (i : Fin n)
    (d : PoseInfo) : (List.ofFn f ++ List.ofFn g).getD i.val d = f i := by
  have hlt : i.val < (List.ofFn f ++ List.ofFn g).length := by
    simp only [List.length_append, List.length_ofFn]
    omega
  rw [List.getD_eq_getElem _ _ hlt,
    List.getElem_append_left (by simpa using i.isLt), List.getElem_ofFn]

/-- Reading slot `n + i` of a batch `ofFn f ++ ofFn g` yields `g i`. -/
theorem getD_ofFn_append_right {n : Nat} (f g : Fin n → PoseInfo) (i : Fin n)
    (d : PoseInfo) : (List.ofFn f ++ List.ofFn g).getD (n + i.val) d = g i := by
  have hlt : n + i.val < (List.ofFn f ++ List.ofFn g).length := by
    simp only [List.length_append, List.length_ofFn]
    omega
  rw [List.getD_eq_getElem _ _ hlt, List.getElem_append_right (by simp)]
  rw [List.getElem_ofFn]
  congr 1
  apply Fin.ext
  simp only [List.length_ofFn]
  omega

/-- Claim C1: every invocation of the landmarks handler carries a `count` of
21 (single hand) or 42 (two hands); whenever `count` is 42 the batch is the
right hand's 21 points followed by the left hand's 21 points, so slots 0-20
read the right hand and slots 21-41 read the left hand. -/
theorem landmarks_batch_hand_order (s : LoaderState) (m : NativeModule)
    (hm : s.loadedModule = some m) (hp : s.phase = LoaderPhase.Initialized)
    (hreg : s.lmRegistered = true) (fi w h : Nat) (px : List Int) :
    ∀ inv ∈ (detectFrame fi w h px s).2.2,
      (inv.count = 21 ∨ inv.count = 42) ∧
      (inv.count = 42 → ∃ right left : Fin 21 → PoseInfo,
        m.detect w h px = Detection.twoHands right left ∧
        inv.batch = List.ofFn right ++ List.ofFn left ∧
        (∀ i : Fin 21, ∀ d, inv.batch.getD i.val d = right i) ∧
        (∀ i : Fin 21, ∀ d, inv.batch.getD (21 + i.val) d = left i)) := by
  obtain ⟨ph, lm, tb, lr, cr⟩ := s
  simp only at hp hm hreg
  subst hp
  subst hm
  subst hreg
  intro inv hinv
  have hinv' : inv =
      { frameIndex := fi, batch := (m.detect w h px).batch,
        count := (m.detect w h px).batch.length } := by
    simpa [detectFrame] using hinv
  subst hinv'
  cases hd : m.detect w h px with
  | oneHand pts =>
    constructor
    · left
      simp [Detection.batch]
    · intro h42
      simp [Detection.batch] at h42
  | twoHands right left =>
    constructor
    · right
      simp [Detection.batch]
    · intro h42
      exact ⟨right, left, rfl, rfl,
        fun i d => getD_ofFn_append_left right left i d,
        fun i d => getD_ofFn_append_right right left i d⟩

/-- Witness for C1: the single invocation produced by a detect-frame call on
the ready loader (whose module sees two hands) has `count` 21 or 42. -/
theorem landmarks_batch_hand_order_witness :
    readyState.lmRegistered = true ∧ (demoInv.count = 21 ∨ demoInv.count = 42) :=
  ⟨rfl,
   (landmarks_batch_hand_order readyState fullModule rfl rfl rfl
     7 100 100 [] demoInv (by decide)).1⟩

/-- Claim C7: the full cycle Load → ResolveAll → Init → Release → Unload on a
module that exports every required symbol and initializes successfully
succeeds and returns the loader to the pristine unloaded state, so running
the same cycle again succeeds identically. -/
theorem load_cycle_idempotent (fs : String → Option NativeModule) (path : String)
    (m : NativeModule) (hfs : fs path = some m)
    (hall : requiredSymbols.all (fun n => m.exports.contains n) = true)
    (hinit : m.initOk = true) :
    runCycle fs path LoaderState.pristine = (true, LoaderState.pristine) ∧
    runCycle fs path (runCycle fs path LoaderState.pristine).2 =
      runCycle fs path LoaderState.pristine := by
  have hfind : requiredSymbols.find? (fun n => !m.exports.contains n) = none := by
    rw [List.find?_eq_none]
    intro x hx
    have hx' := List.all_eq_true.mp hall x hx
    show ¬(!m.exports.contains x) = true
    rw [hx']
    decide
  have hload : load fs path LoaderState.pristine =
      (none, { phase := LoaderPhase.Loaded, loadedModule := some m, table := none,
               lmRegistered := false, clsRegistered := false }) := by
    simp only [load, LoaderState.pristine]
    rw [if_neg (fun hc => hc rfl), hfs]
  have hres : resolveAll
      { phase := LoaderPhase.Loaded, loadedModule := some m, table := none,
        lmRegistered := false, clsRegistered := false } =
      (none, { phase := LoaderPhase.Resolved, loadedModule := some m,
               table := some requiredSymbols, lmRegistered := false,
               clsRegistered := false }) := by
    show (match requiredSymbols.find? (fun n => !m.exports.contains n) with
      | some missing =>
        ((some (LoaderError.SymbolNotFound missing) : Option LoaderError),
         ({ phase := LoaderPhase.Unusable, loadedModule := some m, table := none,
            lmRegistered := false, clsRegistered := false } : LoaderState))
      | none =>
        ((none : Option LoaderError),
         ({ phase := LoaderPhase.Resolved, loadedModule := some m,
            table := some requiredSymbols, lmRegistered := false,
            clsRegistered := false } : LoaderState))) = _
    rw [hfind]
  have hi : initOp
      { phase := LoaderPhase.Resolved, loadedModule := some m,
        table := some requiredSymbols, lmRegistered := false,
        clsRegistered := false } =
      (true, { phase := LoaderPhase.Initialized, loadedModule := some m,
               table := some requiredSymbols, lmRegistered := false,
               clsRegistered := false }) := by
    show (if m.initOk = true then _ else _) = _
    rw [if_pos hinit]
  have h1 : runCycle fs path LoaderState.pristine = (true, LoaderState.pristine) := by
    unfold runCycle
    rw [hload]
    simp only
    rw [hres]
    simp only
    rw [hi]
    simp only
    rfl
  refine ⟨h1, ?_⟩
  rw [h1]
  exact h1

/-- Witness for C7: the demo filesystem holds a fully exporting,
successfully initializing module at the release DLL path, and the cycle run
on the pristine loader succeeds and returns it to the pristine state. -/
theorem load_cycle_idempotent_witness :
    demoFs "./Mediapipe_Hand_Tracking.dll" = some fullModule ∧
    requiredSymbols.all (fun n => fullModule.exports.contains n) = true ∧
    fullModule.initOk = true ∧
    runCycle demoFs "./Mediapipe_Hand_Tracking.dll" LoaderState.pristine =
      (true, LoaderState.pristine) :=
  ⟨rfl, by decide, rfl,
   (load_cycle_idempotent demoFs "./Mediapipe_Hand_Tracking.dll" fullModule
     rfl (by decide) rfl).1⟩
